import Mathlib

/-!
Shallow embedding of `main.py` (Flask virtual-try-on relay service).

The program is a single request handler `virtual_try_on` plus two helpers
`download_image` and `upload_to_supabase`.  External effects (HTTP downloads,
the Gradio inference call, the Supabase storage backend, `os.remove`) are
modelled by an environment `Env` of oracles fixed for the duration of one
request; the local filesystem is an explicit list of existing paths threaded
through the handler.  The handler returns, besides the HTTP response and the
final filesystem, a trace of the downloads, inference calls and uploads it
attempted, so that claims about "no upload is attempted" and the like are
statable.
-/

/-- Source line `UPLOAD_FOLDER = "temp_images"` (main.py line 15). -/
def UPLOAD_FOLDER : String := "temp_images"

/-- Behaviour of `os.path.join(a, b)` for a relative non-empty second component. -/
def path_join (a b : String) : String := a ++ "/" ++ b

/-- Python `s.split(c)` on a character list (structural, so that concrete
instances reduce inside the kernel). -/
def splitOnChar (c : Char) : List Char → List (List Char)
  | [] => [[]]
  | x :: xs =>
      let r := splitOnChar c xs
      if x = c then [] :: r
      else
        match r with
        | [] => [[x]]
        | y :: ys => (x :: y) :: ys

/-- Behaviour of `os.path.basename`: the part after the last `/`. -/
def basename (p : String) : String := ⟨(splitOnChar '/' p.data).getLastD p.data⟩

/-- Python `s.split("?")[0]` (main.py lines 117-118). -/
def strip_query (s : String) : String := ⟨(splitOnChar '?' s.data).headD s.data⟩

/-- Python `s.lower()` (ASCII, which covers the extensions compared against). -/
def lower (s : String) : String := ⟨s.data.map Char.toLower⟩

/-- Python `s.endswith(t)`: character-level suffix test. -/
def endswith (s t : String) : Bool := decide (t.data <:+ s.data)

/-- Python `s.startswith(t)`: character-level test (used only to state the
object-key shape). -/
def startswith (s t : String) : Bool := decide (t.data <+: s.data)

/-- Python truthiness of an optional string (`None` and the empty string are falsy). -/
def truthy : Option String → Bool
  | none => false
  | some s => s != ""

/-- Outcome of one `requests.get` + streamed write in `download_image`:
either the whole body is fetched and written, or a
`requests.exceptions.RequestException` with the given message is raised
(and caught inside `download_image`, which then returns `None`). -/
inductive DownloadOutcome where
  | ok
  | requestError (msg : String)
deriving DecidableEq

/-- The value returned by `client.predict(...)`: either a Python tuple whose
elements are local file paths (the gradio client has already fetched those
files to local disk), or some value that is not a tuple. -/
inductive GradioValue where
  | tuple (elems : List String)
  | nonTuple
deriving DecidableEq

/-- Local files the gradio client created while producing `result`. -/
def gradioFiles : GradioValue → List String
  | .tuple es => es
  | .nonTuple => []

/-- The outcome of `request.get_json()` together with the shape of the body:
`raiseOnParse` models `get_json` raising (malformed JSON, wrong content type,
absent body), `pyNone` models a body that is JSON `null` (so `data` is
Python `None`), and `obj` models a JSON object with the three relevant
fields (`none` = key absent). -/
inductive ReqBody where
  | raiseOnParse (msg : String)
  | pyNone
  | obj (human garment desc : Option String)
deriving DecidableEq

/-- Message of the `AttributeError` raised by `None.get("human_image_url")`. -/
def noneTypeGetMsg : String :=
  "\x27NoneType\x27 object has no attribute \x27get\x27"

/-- Message of the exception raised at main.py line 124. -/
def downloadFailedMsg : String :=
  "Failed to download one or more input images from provided URLs."

/-- Fixed body of the 500 response at main.py line 167. -/
def unexpectedFormatMsg : String :=
  "Unexpected API response format from Gradio API. Expected a tuple of 2 local file paths."

/-- Message of the exception raised at main.py line 62 when the Supabase
client was not initialized at startup. -/
def supabaseNotInitMsg : String :=
  "Supabase client not initialized. Cannot upload files. Check backend logs for details."

/-- Fixed body of the 400 response at main.py line 114. -/
def missingUrlMsg : String := "Missing human_image_url or garment_image_url"

/-- Environment of oracles for one request: everything the handler observes
from the outside world. -/
structure Env where
  /-- Outcome of `request.get_json()` and the parsed body. -/
  body : ReqBody
  /-- Outcome of `download_image` for the human image. -/
  humanDownload : DownloadOutcome
  /-- Outcome of `download_image` for the garment image. -/
  garmentDownload : DownloadOutcome
  /-- Outcome of `Client(...)` + `client.predict(...)` as a function of the
  `garment_des` argument: `.error msg` models the call raising. -/
  predict : String → Except String GradioValue
  /-- Whether the module-level `supabase` client is non-`None`
  (main.py lines 29-38). -/
  supabaseInit : Bool
  /-- Outcome of `supabase.storage.from_(...).upload(storage_path, bytes,
  {content-type})`: `some msg` models the backend raising. -/
  uploadRaises : String → Option String
  /-- `supabase.storage.from_(...).get_public_url(storage_path)`. -/
  publicUrl : String → String
  /-- The four `uuid.uuid4()` draws, in program order. -/
  uuidHuman : String
  uuidGarment : String
  uuidUp1 : String
  uuidUp2 : String
  /-- Outcome of `os.remove(path)`: `some msg` models an `OSError`. -/
  removeRaises : String → Option String

/-- Model of `download_image(url, filename)` (main.py lines 42-55): on success writes
`UPLOAD_FOLDER/filename` and returns that path; on a `RequestException`
prints and returns `None`.  Returns the path option and the new filesystem. -/
def download_image (outcome : DownloadOutcome) (url filename : String)
    (fs : List String) : Option String × List String :=
  match outcome with
  | .ok =>
      let filepath := path_join UPLOAD_FOLDER filename
      (some filepath, filepath :: fs)
  | .requestError _ => (none, fs)

/-- Unique filename `uuid.uuid4() + "_" + filename` (main.py line 67). -/
def unique_filename (u filename : String) : String := u ++ "_" ++ filename

/-- Storage path `destination_folder + "/" + unique_filename` (main.py line 68): the object
key placed in the bucket. -/
def storage_path_of (destination_folder u filename : String) : String :=
  destination_folder ++ "/" ++ unique_filename u filename

/-- Content-type selection of main.py lines 75-81: default `image/webp`,
overridden by the extension of the lower-cased filename. -/
def content_type_for (filename : String) : String :=
  if endswith (lower filename) ".png" then "image/png"
  else if endswith (lower filename) ".jpeg" || endswith (lower filename) ".jpg" then
    "image/jpeg"
  else if endswith (lower filename) ".gif" then "image/gif"
  else "image/webp"

/-- Model of `upload_to_supabase(file_path, destination_folder)` (main.py lines 57-98):
raises if the client is uninitialized or the file does not exist, computes
the object key and content type, uploads, and returns the public URL.
`.error msg` models the function raising with message `msg`. -/
def upload_to_supabase (env : Env) (u : String) (fs : List String)
    (file_path destination_folder : String) : Except String String :=
  if env.supabaseInit = false then
    .error supabaseNotInitMsg
  else if file_path ∈ fs then
    let filename := basename file_path
    let storage_path := storage_path_of destination_folder u filename
    let _content_type := content_type_for filename
    match env.uploadRaises storage_path with
    | some msg => .error msg
    | none => .ok (env.publicUrl storage_path)
  else
    .error ("File not found for upload: " ++ file_path)

/-- A JSON response body produced by the handler: `errJson msg` is
`jsonify({"error": msg})`, `urlsJson` is the 200 body, and `unhandled msg`
is the framework-level error page produced when an exception (here: one
raised by `os.remove` in the `finally` block) escapes the view function. -/
inductive RespBody where
  | errJson (msg : String)
  | urlsJson (output_url masked_url : String)
  | unhandled (msg : String)
deriving DecidableEq

/-- An HTTP response: body and status code. -/
structure Response where
  body : RespBody
  status : Nat
deriving DecidableEq

/-- Result of one request: the response, the final filesystem, the trace of
attempted effects, and the scratch-file paths the handler had recorded in
its four local variables when the `finally` block ran. -/
structure HandlerResult where
  response : Response
  fs : List String
  downloads : List String
  inferenceDescs : List String
  uploads : List (String × String)
  recorded : List String
deriving DecidableEq

/-- The `finally` block (main.py lines 172-185): for each of the four local
variables in order, if it is truthy and the path exists, `os.remove` it;
an `OSError` from `os.remove` is NOT caught and aborts the block.  Returns
the final filesystem and the message of the escaping exception, if any. -/
def cleanup (rm : String → Option String) :
    List (Option String) → List String → List String × Option String
  | [], fs => (fs, none)
  | none :: rest, fs => cleanup rm rest fs
  | some path :: rest, fs =>
      if path ≠ "" ∧ path ∈ fs then
        match rm path with
        | some msg => (fs, some msg)
        | none => cleanup rm rest (fs.filter (fun q => q ≠ path))
      else cleanup rm rest fs

/-- Package a handler exit: run the `finally` block over the four recorded
locals; an exception escaping the `finally` block replaces the primary
response with the framework 500 page. -/
def finishWith (env : Env) (resp : Response) (lh lg lo lm : Option String)
    (fs : List String) (dls : List String) (descs : List String)
    (ups : List (String × String)) : HandlerResult :=
  let c := cleanup env.removeRaises [lh, lg, lo, lm] fs
  { response :=
      match c.2 with
      | some msg => ⟨.unhandled msg, 500⟩
      | none => resp
    fs := c.1
    downloads := dls
    inferenceDescs := descs
    uploads := ups
    recorded := [lh, lg, lo, lm].filterMap id }

/-- Main.py lines 116-185, after the URL validation has passed: download
both inputs, invoke inference, publish both outputs, respond; every raise
lands in the handler at line 169 (500 with the message of the exception), and
the `finally` block always runs. -/
def handle_after_validation (env : Env)
    (human_image_url garment_image_url garment_description : String)
    (fs0 : List String) : HandlerResult :=
  let human_image_filename :=
    "human_input_" ++ env.uuidHuman ++ "_" ++ strip_query (basename human_image_url)
  let garment_image_filename :=
    "garment_input_" ++ env.uuidGarment ++ "_" ++ strip_query (basename garment_image_url)
  let r1 := download_image env.humanDownload human_image_url human_image_filename fs0
  let local_human_path := r1.1
  let r2 := download_image env.garmentDownload garment_image_url garment_image_filename r1.2
  let local_garment_path := r2.1
  let fs2 := r2.2
  let dls := [human_image_url, garment_image_url]
  if local_human_path.isNone || local_garment_path.isNone then
    finishWith env ⟨.errJson downloadFailedMsg, 500⟩
      local_human_path local_garment_path none none fs2 dls [] []
  else
    match env.predict garment_description with
    | .error msg =>
        finishWith env ⟨.errJson msg, 500⟩
          local_human_path local_garment_path none none fs2 dls
          [garment_description] []
    | .ok result =>
        let fs3 := (gradioFiles result).filter (fun p => p ≠ "") ++ fs2
        match result with
        | .tuple [p1, p2] =>
            match upload_to_supabase env env.uuidUp1 fs3 p1 "processed_images" with
            | .error msg =>
                finishWith env ⟨.errJson msg, 500⟩
                  local_human_path local_garment_path (some p1) (some p2) fs3 dls
                  [garment_description] [(p1, "processed_images")]
            | .ok url1 =>
                match upload_to_supabase env env.uuidUp2 fs3 p2 "masked_images" with
                | .error msg =>
                    finishWith env ⟨.errJson msg, 500⟩
                      local_human_path local_garment_path (some p1) (some p2) fs3 dls
                      [garment_description]
                      [(p1, "processed_images"), (p2, "masked_images")]
                | .ok url2 =>
                    finishWith env ⟨.urlsJson url1 url2, 200⟩
                      local_human_path local_garment_path (some p1) (some p2) fs3 dls
                      [garment_description]
                      [(p1, "processed_images"), (p2, "masked_images")]
        | _ =>
            finishWith env ⟨.errJson unexpectedFormatMsg, 500⟩
              local_human_path local_garment_path none none fs3 dls
              [garment_description] []

/-- The whole view function `virtual_try_on` (main.py lines 100-185):
parse the JSON body (a raise there is caught at line 169 and becomes a 500
with the message of that exception), validate the two URL fields (400 on failure),
then run the download / inference / publish pipeline. -/
def virtual_try_on (env : Env) (fs0 : List String) : HandlerResult :=
  match env.body with
  | .raiseOnParse msg =>
      finishWith env ⟨.errJson msg, 500⟩ none none none none fs0 [] [] []
  | .pyNone =>
      finishWith env ⟨.errJson noneTypeGetMsg, 500⟩ none none none none fs0 [] [] []
  | .obj human garment desc =>
      if !truthy human || !truthy garment then
        finishWith env ⟨.errJson missingUrlMsg, 400⟩ none none none none fs0 [] [] []
      else
        handle_after_validation env (human.getD "") (garment.getD "")
          (desc.getD "") fs0

/-- A fully-successful concrete environment: both downloads succeed, the
inference returns a two-element tuple of local paths, storage is initialized
and accepts both uploads, and `os.remove` never fails.  Used to evaluate the
claims on concrete inputs. -/
def envBase : Env :=
  { body := .obj (some "http://h/a.png?v=1") (some "http://g/b.jpg") (some "blue shirt")
    humanDownload := .ok
    garmentDownload := .ok
    predict := fun _ => .ok (.tuple ["out.webp", "mask.png"])
    supabaseInit := true
    uploadRaises := fun _ => none
    publicUrl := fun p => "https://supa/" ++ p
    uuidHuman := "u1"
    uuidGarment := "u2"
    uuidUp1 := "u3"
    uuidUp2 := "u4"
    removeRaises := fun _ => none }

/-! ## Helper lemmas -/

theorem endswith_iff {s t : String} : endswith s t = true ↔ t.data <:+ s.data := by
  simp [endswith]

/-- Two incomparable suffixes cannot both match. -/
theorem endswith_excl {s : String} (a b : String)
    (hab : ¬ a.data <:+ b.data) (hba : ¬ b.data <:+ a.data)
    (ha : endswith s a = true) : endswith s b = false := by
  by_contra h
  have hb : endswith s b = true := by
    cases hbv : endswith s b with
    | false => exact absurd hbv h
    | true => rfl
  rcases List.suffix_or_suffix_of_suffix (endswith_iff.mp ha) (endswith_iff.mp hb) with
    h1 | h1
  · exact hab h1
  · exact hba h1

theorem path_join_ne_empty (fn : String) : path_join UPLOAD_FOLDER fn ≠ "" := by
  intro h
  have h0 : ((UPLOAD_FOLDER ++ "/") ++ fn).data = [] := by
    rw [show (UPLOAD_FOLDER ++ "/") ++ fn = path_join UPLOAD_FOLDER fn from rfl, h]
  rw [String.data_append] at h0
  rcases List.append_eq_nil.mp h0 with ⟨h1, _⟩
  exact absurd h1 (by decide)

theorem empty_notin_download {oc : DownloadOutcome} {url fn : String} {fs : List String}
    (h : ("" : String) ∉ fs) : ("" : String) ∉ (download_image oc url fn fs).2 := by
  cases oc with
  | ok =>
      intro hmem
      rcases List.mem_cons.mp hmem with h1 | h1
      · exact path_join_ne_empty fn h1.symm
      · exact h h1
  | requestError msg => exact h

theorem empty_notin_gradio {ps fs : List String} (h : ("" : String) ∉ fs) :
    ("" : String) ∉ ps.filter (fun p => p ≠ "") ++ fs := by
  intro hmem
  rcases List.mem_append.mp hmem with h1 | h1
  · have := (List.mem_filter.mp h1).2
    simp at this
  · exact h h1

/-- When `os.remove` never raises, the `finally` block never raises, its
result is contained in the starting filesystem, and every truthy recorded
path is gone afterwards. -/
theorem cleanup_spec (rm : String → Option String) (hrm : ∀ p, rm p = none) :
    ∀ (ls : List (Option String)) (fs : List String),
      (cleanup rm ls fs).2 = none ∧
      (∀ q, q ∈ (cleanup rm ls fs).1 → q ∈ fs) ∧
      (∀ p, some p ∈ ls → p ≠ "" → p ∉ (cleanup rm ls fs).1) := by
  intro ls
  induction ls with
  | nil =>
      intro fs
      refine ⟨rfl, fun q hq => hq, ?_⟩
      intro p hp
      simp at hp
  | cons hd tl ih =>
      intro fs
      cases hd with
      | none =>
          have hstep : cleanup rm (none :: tl) fs = cleanup rm tl fs := by
            simp [cleanup]
          rw [hstep]
          have h := ih fs
          refine ⟨h.1, h.2.1, ?_⟩
          intro p hp hne
          have hp' : some p ∈ tl := by
            rcases List.mem_cons.mp hp with h1 | h1
            · exact absurd h1 (by simp)
            · exact h1
          exact h.2.2 p hp' hne
      | some path =>
          by_cases hc : path ≠ "" ∧ path ∈ fs
          · have hstep : cleanup rm (some path :: tl) fs =
                cleanup rm tl (fs.filter (fun q => q ≠ path)) := by
              simp only [cleanup, if_pos hc, hrm path]
            rw [hstep]
            have h := ih (fs.filter (fun q => q ≠ path))
            refine ⟨h.1, ?_, ?_⟩
            · intro q hq
              exact (List.mem_filter.mp (h.2.1 q hq)).1
            · intro p hp hne
              rcases List.mem_cons.mp hp with h1 | h1
              · intro hfin
                have := (List.mem_filter.mp (h.2.1 p hfin)).2
                have hpp : p = path := by exact Option.some.inj h1
                simp [hpp] at this
              · exact h.2.2 p h1 hne
          · have hstep : cleanup rm (some path :: tl) fs = cleanup rm tl fs := by
              simp only [cleanup, if_neg hc]
            rw [hstep]
            have h := ih fs
            refine ⟨h.1, h.2.1, ?_⟩
            intro p hp hne
            rcases List.mem_cons.mp hp with h1 | h1
            · have hpp : p = path := Option.some.inj h1
              subst hpp
              have hnot : p ∉ fs := by
                by_cases hz : p ∈ fs
                · exact absurd ⟨hne, hz⟩ hc
                · exact hz
              intro hfin
              exact hnot (h.2.1 p hfin)
            · exact h.2.2 p h1 hne

/-- When `os.remove` never raises, `finishWith` keeps the primary response. -/
theorem finishWith_response (env : Env) (resp : Response) (lh lg lo lm : Option String)
    (fs dls descs : List String) (ups : List (String × String))
    (hrm : ∀ p, env.removeRaises p = none) :
    (finishWith env resp lh lg lo lm fs dls descs ups).response = resp := by
  have h := (cleanup_spec env.removeRaises hrm [lh, lg, lo, lm] fs).1
  simp [finishWith, h]

/-- With `os.remove` never raising and no empty path on disk, every recorded
path is absent from the final filesystem. -/
theorem finishWith_deletes (env : Env) (resp : Response) (lh lg lo lm : Option String)
    (fs dls descs : List String) (ups : List (String × String))
    (hrm : ∀ p, env.removeRaises p = none) (hfs : ("" : String) ∉ fs) :
    ∀ p ∈ (finishWith env resp lh lg lo lm fs dls descs ups).recorded,
      p ∉ (finishWith env resp lh lg lo lm fs dls descs ups).fs := by
  intro p hp
  have hspec := cleanup_spec env.removeRaises hrm [lh, lg, lo, lm] fs
  have hmem : some p ∈ [lh, lg, lo, lm] := by
    have : p ∈ [lh, lg, lo, lm].filterMap id := hp
    rcases List.mem_filterMap.mp this with ⟨a, ha, hae⟩
    cases a with
    | none => exact absurd hae (by simp)
    | some q =>
        have : q = p := by simpa using hae
        rw [← this]
        exact ha
  by_cases hne : p = ""
  · subst hne
    intro hfin
    exact hfs (hspec.2.1 "" hfin)
  · exact hspec.2.2 p hmem hne

theorem upload_eval_ok (env : Env) (u : String) (fs : List String) (fp dest : String)
    (hsup : env.supabaseInit = true) (hmem : fp ∈ fs)
    (hup : env.uploadRaises (storage_path_of dest u (basename fp)) = none) :
    upload_to_supabase env u fs fp dest =
      .ok (env.publicUrl (storage_path_of dest u (basename fp))) := by
  simp [upload_to_supabase, hsup, hmem, hup]

theorem upload_eval_uninit (env : Env) (u : String) (fs : List String) (fp dest : String)
    (hsup : env.supabaseInit = false) :
    upload_to_supabase env u fs fp dest = .error supabaseNotInitMsg := by
  simp [upload_to_supabase, hsup]

/-! ## Claims -/

/-- Claim C4: for every JSON object body in which `human_image_url` or
`garment_image_url` is missing or empty, the handler responds 400 with
exactly `{"error": "Missing human_image_url or garment_image_url"}`, and
neither download nor inference nor publish is attempted, and the
filesystem is untouched. -/
theorem missing_url_responds_400 (env : Env) (fs0 : List String)
    (human garment desc : Option String)
    (hbody : env.body = .obj human garment desc)
    (hmiss : truthy human = false ∨ truthy garment = false) :
    virtual_try_on env fs0 =
      { response := ⟨.errJson missingUrlMsg, 400⟩
        fs := fs0
        downloads := []
        inferenceDescs := []
        uploads := []
        recorded := [] } := by
  have hcond : (!truthy human || !truthy garment) = true := by
    rcases hmiss with h | h <;> simp [h]
  simp [virtual_try_on, hbody, hcond, finishWith, cleanup]

/-- Witness for C4: a concrete request whose human URL is the empty string. -/
theorem missing_url_responds_400_witness :
    virtual_try_on { envBase with body := .obj (some "") (some "http://g/b.jpg") none } [] =
      { response := ⟨.errJson missingUrlMsg, 400⟩
        fs := []
        downloads := []
        inferenceDescs := []
        uploads := []
        recorded := [] } :=
  missing_url_responds_400 _ [] (some "") (some "http://g/b.jpg") none rfl
    (Or.inl (by decide))

/-- Claim C9: for every request whose body is not a JSON object (parse
failure or JSON `null`), the handler responds 500 (not 400) with the raised
message of the raised exception as the error body, before any download, inference or
publish. -/
theorem body_parse_failure_responds_500 (env : Env) (fs0 : List String) :
    (∀ msg, env.body = .raiseOnParse msg →
      virtual_try_on env fs0 =
        { response := ⟨.errJson msg, 500⟩
          fs := fs0
          downloads := []
          inferenceDescs := []
          uploads := []
          recorded := [] }) ∧
    (env.body = .pyNone →
      virtual_try_on env fs0 =
        { response := ⟨.errJson noneTypeGetMsg, 500⟩
          fs := fs0
          downloads := []
          inferenceDescs := []
          uploads := []
          recorded := [] }) := by
  constructor
  · intro msg hbody
    simp [virtual_try_on, hbody, finishWith, cleanup]
  · intro hbody
    simp [virtual_try_on, hbody, finishWith, cleanup]

/-- Witness for C9: a concrete malformed-JSON request. -/
theorem body_parse_failure_responds_500_witness :
    virtual_try_on { envBase with body := .raiseOnParse "400 Bad Request: malformed JSON" } [] =
      { response := ⟨.errJson "400 Bad Request: malformed JSON", 500⟩
        fs := []
        downloads := []
        inferenceDescs := []
        uploads := []
        recorded := [] } :=
  (body_parse_failure_responds_500
    { envBase with body := .raiseOnParse "400 Bad Request: malformed JSON" } []).1 _ rfl

/-- Counterexample to C3: when the human-image download fails with a
`RequestException` whose message is `"boom"`, the 500 error body is NOT
`"boom"` (the exception is swallowed inside `download_image`, main.py
line 53-55); the handler raises and surfaces the fixed message of main.py
line 124 instead. -/
theorem download_error_message_cex :
    (virtual_try_on { envBase with humanDownload := .requestError "boom" } []).response.body
        ≠ .errJson "boom" ∧
    (virtual_try_on { envBase with humanDownload := .requestError "boom" } []).response
        = ⟨.errJson downloadFailedMsg, 500⟩ := by
  constructor
  · decide
  · decide

/-- Claim C3 (amended): for every valid request in which downloading either
image fails, the handler aborts with a 500 response whose error text is the
fixed message `"Failed to download one or more input images from provided
URLs."` (the message of the failing download exception is only logged), and
neither inference nor publish is attempted. -/
theorem download_failure_responds_500_fixed (env : Env) (fs0 : List String)
    (human garment desc : Option String)
    (hbody : env.body = .obj human garment desc)
    (hh : truthy human = true) (hg : truthy garment = true)
    (hfail : (∃ m, env.humanDownload = .requestError m) ∨
      (∃ m, env.garmentDownload = .requestError m))
    (hrm : ∀ p, env.removeRaises p = none) :
    (virtual_try_on env fs0).response = ⟨.errJson downloadFailedMsg, 500⟩ ∧
    (virtual_try_on env fs0).inferenceDescs = [] ∧
    (virtual_try_on env fs0).uploads = [] := by
  have hcond : (!truthy human || !truthy garment) = false := by simp [hh, hg]
  rcases hd1 : env.humanDownload with _ | m1 <;>
    rcases hd2 : env.garmentDownload with _ | m2
  · rw [hd1, hd2] at hfail
    rcases hfail with ⟨m, hm⟩ | ⟨m, hm⟩ <;> exact absurd hm (by simp)
  all_goals
    simp only [virtual_try_on, hbody, hcond, Bool.false_eq_true, if_false,
      handle_after_validation, hd1, hd2, download_image, Option.isNone_none,
      Option.isNone_some, Bool.true_or, Bool.or_true, Bool.false_or, if_true]
  all_goals
    exact ⟨finishWith_response _ _ _ _ _ _ _ _ _ _ hrm, rfl, rfl⟩

/-- Witness for the amended C3: concrete garment download failure. -/
theorem download_failure_responds_500_fixed_witness :
    (virtual_try_on { envBase with garmentDownload := .requestError "conn reset" } []).response
        = ⟨.errJson downloadFailedMsg, 500⟩ ∧
    (virtual_try_on { envBase with garmentDownload := .requestError "conn reset" } []).inferenceDescs
        = [] ∧
    (virtual_try_on { envBase with garmentDownload := .requestError "conn reset" } []).uploads
        = [] :=
  download_failure_responds_500_fixed _ [] (some "http://h/a.png?v=1") (some "http://g/b.jpg")
    (some "blue shirt") rfl (by decide) (by decide)
    (Or.inr ⟨"conn reset", rfl⟩) (fun _ => rfl)

/-- Claim C2: when both downloads succeed and the inference call returns a
value that is not a two-element tuple, the handler responds 500 with the
fixed unexpected-format message and no upload is attempted. -/
theorem non_tuple2_responds_500_no_upload (env : Env) (fs0 : List String)
    (human garment desc : Option String) (r : GradioValue)
    (hbody : env.body = .obj human garment desc)
    (hh : truthy human = true) (hg : truthy garment = true)
    (hd1 : env.humanDownload = .ok) (hd2 : env.garmentDownload = .ok)
    (hpred : env.predict (desc.getD "") = .ok r)
    (hshape : ∀ es, r = .tuple es → es.length ≠ 2)
    (hrm : ∀ p, env.removeRaises p = none) :
    (virtual_try_on env fs0).response = ⟨.errJson unexpectedFormatMsg, 500⟩ ∧
    (virtual_try_on env fs0).uploads = [] := by
  have hcond : (!truthy human || !truthy garment) = false := by simp [hh, hg]
  have hmain : virtual_try_on env fs0 =
      handle_after_validation env (human.getD "") (garment.getD "") (desc.getD "") fs0 := by
    simp [virtual_try_on, hbody, hcond]
  rw [hmain]
  rcases r with es | _
  · rcases es with _ | ⟨p1, es⟩
    · simp only [handle_after_validation, hd1, hd2, download_image, hpred,
        Option.isNone_some, Bool.or_self, if_false, gradioFiles]
      exact ⟨finishWith_response _ _ _ _ _ _ _ _ _ _ hrm, rfl⟩
    · rcases es with _ | ⟨p2, es⟩
      · simp only [handle_after_validation, hd1, hd2, download_image, hpred,
          Option.isNone_some, Bool.or_self, if_false, gradioFiles]
        exact ⟨finishWith_response _ _ _ _ _ _ _ _ _ _ hrm, rfl⟩
      · rcases es with _ | ⟨p3, es⟩
        · exact absurd rfl (hshape [p1, p2] · rfl)
        · simp only [handle_after_validation, hd1, hd2, download_image, hpred,
            Option.isNone_some, Bool.or_self, if_false, gradioFiles]
          exact ⟨finishWith_response _ _ _ _ _ _ _ _ _ _ hrm, rfl⟩
  · simp only [handle_after_validation, hd1, hd2, download_image, hpred,
      Option.isNone_some, Bool.or_self, if_false, gradioFiles]
    exact ⟨finishWith_response _ _ _ _ _ _ _ _ _ _ hrm, rfl⟩

/-- Witness for C2: inference returns a three-element tuple. -/
theorem non_tuple2_responds_500_no_upload_witness :
    (virtual_try_on
        { envBase with predict := fun _ => .ok (.tuple ["a", "b", "c"]) } []).response
      = ⟨.errJson unexpectedFormatMsg, 500⟩ ∧
    (virtual_try_on
        { envBase with predict := fun _ => .ok (.tuple ["a", "b", "c"]) } []).uploads
      = [] :=
  non_tuple2_responds_500_no_upload _ [] (some "http://h/a.png?v=1") (some "http://g/b.jpg")
    (some "blue shirt") (.tuple ["a", "b", "c"]) rfl (by decide) (by decide) rfl rfl rfl
    (by intro es h; cases h; decide) (fun _ => rfl)

/-- Claim C5: when the Supabase client was not initialized at startup, every
otherwise-valid request (downloads and inference succeeded, inference
returned a two-element tuple) fails at the publish phase with a 500 whose
message says storage is unavailable. -/
theorem storage_uninitialized_fails_publish (env : Env) (fs0 : List String)
    (human garment desc : Option String) (p1 p2 : String)
    (hbody : env.body = .obj human garment desc)
    (hh : truthy human = true) (hg : truthy garment = true)
    (hd1 : env.humanDownload = .ok) (hd2 : env.garmentDownload = .ok)
    (hpred : env.predict (desc.getD "") = .ok (.tuple [p1, p2]))
    (hsup : env.supabaseInit = false)
    (hrm : ∀ p, env.removeRaises p = none) :
    (virtual_try_on env fs0).response = ⟨.errJson supabaseNotInitMsg, 500⟩ := by
  have hcond : (!truthy human || !truthy garment) = false := by simp [hh, hg]
  have hmain : virtual_try_on env fs0 =
      handle_after_validation env (human.getD "") (garment.getD "") (desc.getD "") fs0 := by
    simp [virtual_try_on, hbody, hcond]
  rw [hmain]
  simp only [handle_after_validation, hd1, hd2, download_image, hpred,
    Option.isNone_some, Bool.or_self, if_false, gradioFiles]
  rw [upload_eval_uninit env env.uuidUp1 _ p1 "processed_images" hsup]
  exact finishWith_response _ _ _ _ _ _ _ _ _ _ hrm

/-- Witness for C5: the base request with storage unconfigured. -/
theorem storage_uninitialized_fails_publish_witness :
    (virtual_try_on { envBase with supabaseInit := false } []).response
      = ⟨.errJson supabaseNotInitMsg, 500⟩ :=
  storage_uninitialized_fails_publish _ [] (some "http://h/a.png?v=1") (some "http://g/b.jpg")
    (some "blue shirt") "out.webp" "mask.png" rfl (by decide) (by decide) rfl rfl rfl rfl
    (fun _ => rfl)

/-- Claim C7: when inference returns a two-element tuple, the first output
is published to `processed_images` and the second to `masked_images`, in
that order, and the handler responds 200 with exactly
`{"output_url": <public URL of the first>, "masked_url": <public URL of the
second>}`. -/
theorem tuple2_publishes_and_responds_200 (env : Env) (fs0 : List String)
    (human garment desc : Option String) (p1 p2 : String)
    (hbody : env.body = .obj human garment desc)
    (hh : truthy human = true) (hg : truthy garment = true)
    (hd1 : env.humanDownload = .ok) (hd2 : env.garmentDownload = .ok)
    (hpred : env.predict (desc.getD "") = .ok (.tuple [p1, p2]))
    (hp1 : p1 ≠ "") (hp2 : p2 ≠ "")
    (hsup : env.supabaseInit = true)
    (hupload : ∀ sp, env.uploadRaises sp = none)
    (hrm : ∀ p, env.removeRaises p = none) :
    (virtual_try_on env fs0).response =
      ⟨.urlsJson (env.publicUrl (storage_path_of "processed_images" env.uuidUp1 (basename p1)))
        (env.publicUrl (storage_path_of "masked_images" env.uuidUp2 (basename p2))), 200⟩ ∧
    (virtual_try_on env fs0).uploads = [(p1, "processed_images"), (p2, "masked_images")] := by
  have hcond : (!truthy human || !truthy garment) = false := by simp [hh, hg]
  have hmain : virtual_try_on env fs0 =
      handle_after_validation env (human.getD "") (garment.getD "") (desc.getD "") fs0 := by
    simp [virtual_try_on, hbody, hcond]
  rw [hmain]
  simp only [handle_after_validation, hd1, hd2, download_image, hpred,
    Option.isNone_some, Bool.or_self, if_false, gradioFiles]
  have hfl : List.filter (fun p => decide (p ≠ "")) [p1, p2] = [p1, p2] := by
    simp [hp1, hp2]
  simp only [hfl, List.cons_append, List.nil_append]
  set hpath := path_join UPLOAD_FOLDER
    ("human_input_" ++ env.uuidHuman ++ "_" ++ strip_query (basename (human.getD "")))
  set gpath := path_join UPLOAD_FOLDER
    ("garment_input_" ++ env.uuidGarment ++ "_" ++ strip_query (basename (garment.getD "")))
  rw [upload_eval_ok env env.uuidUp1 (p1 :: p2 :: gpath :: hpath :: fs0) p1
    "processed_images" hsup (by simp) (hupload _)]
  simp only []
  rw [upload_eval_ok env env.uuidUp2 (p1 :: p2 :: gpath :: hpath :: fs0) p2
    "masked_images" hsup (by simp) (hupload _)]
  exact ⟨finishWith_response _ _ _ _ _ _ _ _ _ _ hrm, rfl⟩

/-- Witness for C7: the fully-successful base environment. -/
theorem tuple2_publishes_and_responds_200_witness :
    (virtual_try_on envBase []).response =
      ⟨.urlsJson
        (envBase.publicUrl (storage_path_of "processed_images" envBase.uuidUp1 (basename "out.webp")))
        (envBase.publicUrl (storage_path_of "masked_images" envBase.uuidUp2 (basename "mask.png"))),
        200⟩ ∧
    (virtual_try_on envBase []).uploads =
      [("out.webp", "processed_images"), ("mask.png", "masked_images")] :=
  tuple2_publishes_and_responds_200 envBase [] (some "http://h/a.png?v=1")
    (some "http://g/b.jpg") (some "blue shirt") "out.webp" "mask.png" rfl (by decide)
    (by decide) rfl rfl rfl (by decide) (by decide) rfl (fun _ => rfl) (fun _ => rfl)

/-- Claim C6: the content type is selected from the (lower-cased) filename
extension by exactly the table `.png → image/png`, `.jpeg`/`.jpg` →
`image/jpeg`, `.gif → image/gif`, anything else → `image/webp`. -/
theorem content_type_table (filename : String) :
    (endswith (lower filename) ".png" = true →
      content_type_for filename = "image/png") ∧
    (endswith (lower filename) ".jpeg" = true ∨ endswith (lower filename) ".jpg" = true →
      content_type_for filename = "image/jpeg") ∧
    (endswith (lower filename) ".gif" = true →
      content_type_for filename = "image/gif") ∧
    (endswith (lower filename) ".png" = false → endswith (lower filename) ".jpeg" = false →
      endswith (lower filename) ".jpg" = false → endswith (lower filename) ".gif" = false →
      content_type_for filename = "image/webp") := by
  refine ⟨?_, ?_, ?_, ?_⟩
  · intro h
    simp [content_type_for, h]
  · intro h
    rcases h with h | h
    · have hpng : endswith (lower filename) ".png" = false :=
        endswith_excl ".jpeg" ".png" (by decide) (by decide) h
      simp [content_type_for, hpng, h]
    · have hpng : endswith (lower filename) ".png" = false :=
        endswith_excl ".jpg" ".png" (by decide) (by decide) h
      simp [content_type_for, hpng, h]
  · intro h
    have h1 : endswith (lower filename) ".png" = false :=
      endswith_excl ".gif" ".png" (by decide) (by decide) h
    have h2 : endswith (lower filename) ".jpeg" = false :=
      endswith_excl ".gif" ".jpeg" (by decide) (by decide) h
    have h3 : endswith (lower filename) ".jpg" = false :=
      endswith_excl ".gif" ".jpg" (by decide) (by decide) h
    simp [content_type_for, h1, h2, h3, h]
  · intro h1 h2 h3 h4
    simp [content_type_for, h1, h2, h3, h4]

/-- Witness for C6: one concrete filename per table row (including a
case-insensitive match). -/
theorem content_type_table_witness :
    content_type_for "x.png" = "image/png" ∧
    content_type_for "x.JPG" = "image/jpeg" ∧
    content_type_for "x.gif" = "image/gif" ∧
    content_type_for "x.bin" = "image/webp" :=
  ⟨(content_type_table "x.png").1 (by decide),
   (content_type_table "x.JPG").2.1 (Or.inr (by decide)),
   (content_type_table "x.gif").2.2.1 (by decide),
   (content_type_table "x.bin").2.2.2 (by decide) (by decide) (by decide) (by decide)⟩

/-- Claim C8: the object key placed in the bucket is
`{destination_folder}/{uuid draw}_{original base filename}`: it starts with
the destination folder, then the random component and an underscore, and
ends with the base filename of the uploaded local file. -/
theorem storage_key_form (destination_folder u file_path : String) :
    storage_path_of destination_folder u (basename file_path) =
      destination_folder ++ "/" ++ u ++ "_" ++ basename file_path ∧
    startswith (storage_path_of destination_folder u (basename file_path))
      (destination_folder ++ "/" ++ u ++ "_") = true ∧
    endswith (storage_path_of destination_folder u (basename file_path))
      (basename file_path) = true := by
  refine ⟨?_, ?_, ?_⟩
  · apply String.ext
    simp only [storage_path_of, unique_filename, String.data_append, List.append_assoc]
  · have hdata : (storage_path_of destination_folder u (basename file_path)).data =
        ((destination_folder ++ "/" ++ u ++ "_")).data ++ (basename file_path).data := by
      simp only [storage_path_of, unique_filename, String.data_append, List.append_assoc]
    simp only [startswith, hdata, decide_eq_true_eq]
    exact List.prefix_append _ _
  · have hdata : (storage_path_of destination_folder u (basename file_path)).data =
        ((destination_folder ++ "/" ++ u ++ "_")).data ++ (basename file_path).data := by
      simp only [storage_path_of, unique_filename, String.data_append, List.append_assoc]
    simp only [endswith, hdata, decide_eq_true_eq]
    exact List.suffix_append _ _

theorem handle_after_validation_descs (env : Env) (hu gu gd : String) (fs0 : List String) :
    (handle_after_validation env hu gu gd fs0).inferenceDescs = [] ∨
    (handle_after_validation env hu gu gd fs0).inferenceDescs = [gd] := by
  simp only [handle_after_validation]
  split
  · left
    rfl
  · split
    · right
      rfl
    · split
      · split
        · right
          rfl
        · split
          · right
            rfl
          · right
            rfl
      · right
        rfl

/-- Claim C10: a request with no `garment_description` key behaves exactly
like one that supplies the empty string, and whenever inference is invoked
on such a request the garment description passed is `""`. -/
theorem absent_description_defaults_empty (env : Env) (fs0 : List String)
    (human garment : Option String) :
    virtual_try_on { env with body := .obj human garment none } fs0 =
      virtual_try_on { env with body := .obj human garment (some "") } fs0 ∧
    ∀ d ∈ (virtual_try_on { env with body := .obj human garment none } fs0).inferenceDescs,
      d = "" := by
  constructor
  · cases env
    rfl
  · intro d hd
    by_cases hc : (!truthy human || !truthy garment) = true
    · rw [show virtual_try_on { env with body := .obj human garment none } fs0 =
          finishWith { env with body := .obj human garment none }
            ⟨.errJson missingUrlMsg, 400⟩ none none none none fs0 [] [] [] by
            simp [virtual_try_on, hc]] at hd
      simp [finishWith] at hd
    · have hc' : (!truthy human || !truthy garment) = false := by
        cases h : (!truthy human || !truthy garment) with
        | false => rfl
        | true => exact absurd h hc
      rw [show virtual_try_on { env with body := .obj human garment none } fs0 =
          handle_after_validation { env with body := .obj human garment none }
            (human.getD "") (garment.getD "") "" fs0 by
            simp [virtual_try_on, hc']] at hd
      rcases handle_after_validation_descs { env with body := .obj human garment none }
          (human.getD "") (garment.getD "") "" fs0 with h | h
      · rw [h] at hd
        simp at hd
      · rw [h] at hd
        simpa using hd

/-- Witness for C10: the base environment with the description key removed. -/
theorem absent_description_defaults_empty_witness :
    virtual_try_on { envBase with
        body := .obj (some "http://h/a.png?v=1") (some "http://g/b.jpg") none } [] =
      virtual_try_on { envBase with
        body := .obj (some "http://h/a.png?v=1") (some "http://g/b.jpg") (some "") } [] ∧
    ∀ d ∈ (virtual_try_on { envBase with
        body := .obj (some "http://h/a.png?v=1") (some "http://g/b.jpg") none } []).inferenceDescs,
      d = "" :=
  absent_description_defaults_empty envBase [] (some "http://h/a.png?v=1")
    (some "http://g/b.jpg")

/-- Every exit of the handler is a `finishWith` whose filesystem contains no
empty path (given the initial one did not) and whose primary response is
never the framework error page. -/
theorem handler_shape (env : Env) (fs0 : List String)
    (hfs : ("" : String) ∉ fs0) :
    ∃ resp lh lg lo lm fs dls descs ups,
      virtual_try_on env fs0 = finishWith env resp lh lg lo lm fs dls descs ups ∧
      ("" : String) ∉ fs ∧
      ∀ msg, resp.body ≠ RespBody.unhandled msg := by
  simp only [virtual_try_on]
  split
  · exact ⟨_, _, _, _, _, _, _, _, _, rfl, hfs, by simp⟩
  · exact ⟨_, _, _, _, _, _, _, _, _, rfl, hfs, by simp⟩
  · split
    · exact ⟨_, _, _, _, _, _, _, _, _, rfl, hfs, by simp⟩
    · simp only [handle_after_validation]
      split
      · refine ⟨_, _, _, _, _, _, _, _, _, rfl, ?_, by simp⟩
        exact empty_notin_download (empty_notin_download hfs)
      · split
        · refine ⟨_, _, _, _, _, _, _, _, _, rfl, ?_, by simp⟩
          exact empty_notin_download (empty_notin_download hfs)
        · split
          · split
            · refine ⟨_, _, _, _, _, _, _, _, _, rfl, ?_, by simp⟩
              exact empty_notin_gradio (empty_notin_download (empty_notin_download hfs))
            · split
              · refine ⟨_, _, _, _, _, _, _, _, _, rfl, ?_, by simp⟩
                exact empty_notin_gradio (empty_notin_download (empty_notin_download hfs))
              · refine ⟨_, _, _, _, _, _, _, _, _, rfl, ?_, by simp⟩
                exact empty_notin_gradio (empty_notin_download (empty_notin_download hfs))
          · refine ⟨_, _, _, _, _, _, _, _, _, rfl, ?_, by simp⟩
            exact empty_notin_gradio (empty_notin_download (empty_notin_download hfs))

/-- Claim C1 (amended): provided `os.remove` succeeds on every path (the
code does not guard deletion failures), every scratch path recorded by the
handler — the downloaded input files and the inference-output files it
stored in its locals — is absent from the filesystem when the handler
returns, on every exit path, files that do not exist being skipped; and the
primary response is then never replaced by the framework error page. -/
theorem scratch_files_deleted (env : Env) (fs0 : List String)
    (hfs : ("" : String) ∉ fs0)
    (hrm : ∀ p, env.removeRaises p = none) :
    (∀ p ∈ (virtual_try_on env fs0).recorded, p ∉ (virtual_try_on env fs0).fs) ∧
    (∀ msg, (virtual_try_on env fs0).response.body ≠ RespBody.unhandled msg) := by
  obtain ⟨resp, lh, lg, lo, lm, fs, dls, descs, ups, heq, hfsx, hrsp⟩ :=
    handler_shape env fs0 hfs
  rw [heq]
  refine ⟨finishWith_deletes _ _ _ _ _ _ _ _ _ _ hrm hfsx, ?_⟩
  intro msg
  rw [finishWith_response _ _ _ _ _ _ _ _ _ _ hrm]
  exact hrsp msg

/-- Witness for the amended C1: the fully-successful base environment. -/
theorem scratch_files_deleted_witness :
    (∀ p ∈ (virtual_try_on envBase []).recorded, p ∉ (virtual_try_on envBase []).fs) ∧
    (∀ msg, (virtual_try_on envBase []).response.body ≠ RespBody.unhandled msg) :=
  scratch_files_deleted envBase [] (by simp) (fun _ => rfl)

/-- Counterexample to C1 as stated: if `os.remove` of the first recorded
scratch file raises (`"Permission denied"`), the exception escapes the
`finally` block (main.py lines 172-185 have no try/except around
`os.remove`): the primary response IS replaced by the framework error page,
and the remaining recorded scratch files (here the garment input download)
are NOT deleted. -/
theorem cleanup_failure_masks_response_cex :
    (virtual_try_on { envBase with removeRaises := fun p =>
        if p = "temp_images/human_input_u1_a.png" then some "Permission denied"
        else none } []).response
      = ⟨.unhandled "Permission denied", 500⟩ ∧
    "temp_images/garment_input_u2_b.jpg" ∈
      (virtual_try_on { envBase with removeRaises := fun p =>
        if p = "temp_images/human_input_u1_a.png" then some "Permission denied"
        else none } []).fs ∧
    "temp_images/garment_input_u2_b.jpg" ∈
      (virtual_try_on { envBase with removeRaises := fun p =>
        if p = "temp_images/human_input_u1_a.png" then some "Permission denied"
        else none } []).recorded := by
  refine ⟨by decide, by decide, by decide⟩
